import Mathlib

/-!
Shallow embedding of the maestro-mcp server core (Go) in Lean 4.

Modelled source files:
* `src/pkg/mcp/server.go`    — tool registry, HTTP dispatch, `getDatabaseByName`
* `src/pkg/mcp/handlers.go`  — the nine tool handlers
* `src/pkg/vectordb/interface.go` — `VectorDatabase` interface, `Document`,
  `SearchResult`, `WriteStats`, `CreateVectorDatabase`
* MilvusDatabase (mock-client backed variant, `MilvusClient` interface)
* `src/pkg/vectordb/mock.go` — `MockMilvusClient`
* `src/pkg/vectordb/weaviate.go` — `WeaviateDatabase` (official-client variant)

Modelling conventions:
* Go `interface{}`/JSON values are the inductive `GoVal`; JSON numbers
  (Go `float64`) are represented as rationals, which is exact for every
  numeric literal the modelled code produces or consumes.
* Go maps are association lists with `mapLookup` / `mapSet` / `mapDelete`;
  iteration order of `range` over a map is modelled as list order.
* A Go runtime panic — reachable in `MockMilvusClient.ListDocuments` through
  an out-of-range slice expression, and in `MockMilvusClient.Search` through
  `make` with a negative capacity — is the `GoErr.panic` outcome; a returned
  `error` is `GoErr.err` carrying the message string.
* Handles live in a heap (`Server.handles`) keyed by allocation ids and the
  registry `Server.vectorDBs` maps names to ids, mirroring Go's pointer
  indirection: backend operations mutate the handle's state, never the
  name-to-handle mapping.
* Wall-clock values (`time.Now`, elapsed durations) are not modelled:
  document-id generation receives the current `UnixNano` through `Ctx.now`
  and `WriteStats.processingTime` is the empty string.
* The external Weaviate server consulted by `WeaviateDatabase.Setup` is out
  of scope for the repository; its two replies (class-existence check and
  class creation) enter through `Ctx.weavClassExists` / `Ctx.weavCreateClass`.
* `VDB.iface` stands for an arbitrary further implementation of the
  `VectorDatabase` interface of `interface.go`, described by the observable
  results of its operations; handlers are written against the interface, so
  their contracts are stated over it as well.
-/

/-- Go `interface{}` / decoded JSON values. Numbers are exact rationals. -/
inductive GoVal where
  | str (s : String)
  | num (q : ℚ)
  | bool (b : Bool)
  | arr (elems : List GoVal)
  | obj (fields : List (String × GoVal))
  | null

/-- Lookup in an association list, first binding wins (Go map read). -/
def mapLookup {κ α : Type} [DecidableEq κ] : List (κ × α) → κ → Option α
  | [], _ => none
  | (k2, v) :: rest, k => if k2 = k then some v else mapLookup rest k

/-- Go map write: overwrite the binding for `k` or append a fresh one. -/
def mapSet {κ α : Type} [DecidableEq κ] : List (κ × α) → κ → α → List (κ × α)
  | [], k, v => [(k, v)]
  | (k2, w) :: rest, k, v =>
    if k2 = k then (k, v) :: rest else (k2, w) :: mapSet rest k v

/-- Go `delete(m, k)`: drop every binding for `k`. -/
def mapDelete {κ α : Type} [DecidableEq κ] : List (κ × α) → κ → List (κ × α)
  | [], _ => []
  | (k2, v) :: rest, k =>
    if k2 = k then mapDelete rest k else (k2, v) :: mapDelete rest k

/-- `vectordb.Document` (interface.go): document vectors are `[]float64`,
modelled as exact rationals. -/
structure Document where
  id : String
  url : String
  text : String
  metadata : List (String × GoVal)
  vector : List ℚ

/-- `vectordb.SearchResult` (interface.go). -/
structure SearchResult where
  document : Document
  score : ℚ

/-- `vectordb.WriteStats` (interface.go); `processingTime` is wall-clock
data, always modelled as the empty string. -/
structure WriteStats where
  documentsWritten : Int
  processingTime : String
  errors : List String
deriving DecidableEq

/-- Outcome of a Go call: a returned `error` or a runtime panic. -/
inductive GoErr where
  | err (msg : String)
  | panic (msg : String)
deriving DecidableEq

/-- `vectordb.MockMilvusClient` state (mock.go): collections with their
schema values, and the per-collection document lists. -/
structure MockClient where
  collections : List (String × GoVal)
  documents : List (String × List Document)

/-- Fresh `NewMockMilvusClient()` state: empty maps. -/
def emptyMockClient : MockClient := { collections := [], documents := [] }

/-- Message of the mock clients for an unknown collection. -/
def collNotExistMsg (coll : String) : String :=
  "collection \x27" ++ coll ++ "\x27 does not exist"

/-- `MockMilvusClient.CreateCollection` (mock.go): unconditionally stores the
schema and resets the collection's document list to empty. -/
def MockClient.createCollection (c : MockClient) (name : String) (schema : GoVal) :
    MockClient :=
  { collections := mapSet c.collections name schema,
    documents := mapSet c.documents name [] }

/-- Id assignment loop of `MockMilvusClient.Insert`: a document with an empty
id gets `doc_<UnixNano>_<index>`. -/
def assignIdsFrom (now : Nat) : Nat → List Document → List Document
  | _, [] => []
  | i, d :: ds =>
    (if d.id = "" then
       { d with id := "doc_" ++ toString now ++ "_" ++ toString i }
     else d) :: assignIdsFrom now (i + 1) ds

/-- `MockMilvusClient.Insert` (mock.go). -/
def MockClient.insert (c : MockClient) (coll : String) (now : Nat)
    (docs : List Document) : Except String MockClient :=
  match mapLookup c.documents coll with
  | none => .error (collNotExistMsg coll)
  | some existing =>
    .ok { c with
          documents := mapSet c.documents coll
            (existing ++ assignIdsFrom now 0 docs) }

/-- Result-building loop of `MockMilvusClient.Search`: iterate the stored
documents with index `i`, stop at `i >= limit`, score `0.9 - float64(i)*0.1`. -/
def searchLoop (limit : Int) : Nat → List Document → List SearchResult
  | _, [] => []
  | i, d :: ds =>
    if (i : Int) < limit then
      { document := d, score := 9 / 10 - (i : ℚ) / 10 } :: searchLoop limit (i + 1) ds
    else []

/-- Panic message of `make` with a negative capacity. -/
def makesliceOOBMsg : String := "runtime error: makeslice: cap out of range"

/-- `MockMilvusClient.Search` (mock.go); the query string does not influence
the mock's results. After the collection lookup the code runs
`make([]SearchResult, 0, limit)`, which panics at run time for a negative
`limit`, before the result loop. -/
def MockClient.search (c : MockClient) (coll : String) (_query : String)
    (limit : Int) : Except GoErr (List SearchResult) :=
  match mapLookup c.documents coll with
  | none => .error (.err (collNotExistMsg coll))
  | some docs =>
    if limit < 0 then .error (.panic makesliceOOBMsg)
    else .ok (searchLoop limit 0 docs)

/-- Rendering of `%.2f` applied to a score (mock.go `Query`); the exact
decimal string of the modelled rational, rounded to two places. -/
def formatScore2 (q : ℚ) : String :=
  let cents : Int := round (q * 100)
  let a : Nat := cents.natAbs
  let frac : Nat := a % 100
  (if cents < 0 then "-" else "") ++ toString (a / 100) ++ "." ++
    (if frac < 10 then "0" else "") ++ toString frac

/-- Line-building loop of `MockMilvusClient.Query`: one numbered line per
result, truncating the text to 100 characters (Go slices the first 100
bytes; identical for ASCII text). -/
def queryLines : Nat → List SearchResult → String
  | _, [] => ""
  | i, r :: rs =>
    toString (i + 1) ++ ". " ++ r.document.text.take 100 ++ " (Score: " ++
      formatScore2 r.score ++ ")\n" ++ queryLines (i + 1) rs

/-- Response string of `MockMilvusClient.Query`. -/
def queryResponse (q : String) (results : List SearchResult) : String :=
  "Found " ++ toString results.length ++ " relevant documents for query \x27" ++
    q ++ "\x27:\n" ++ queryLines 0 results

/-- `MockMilvusClient.Query` (mock.go): search, then summarize as a string.
A returned search error is passed back; a search panic unwinds through. -/
def MockClient.query (c : MockClient) (coll : String) (q : String)
    (limit : Int) : Except GoErr GoVal :=
  match c.search coll q limit with
  | .error e => .error e
  | .ok results => .ok (.str (queryResponse q results))

/-- Panic message of an out-of-range Go slice expression. -/
def sliceOOBMsg : String := "runtime error: slice bounds out of range"

/-- `MockMilvusClient.ListDocuments` (mock.go): `start := offset`,
`end := offset + limit`, early empty return for `start >= len(docs)`, clamp
`end` to `len(docs)`, then the slice `docs[start:end]` — which panics unless
`0 <= start <= end`. -/
def MockClient.listDocuments (c : MockClient) (coll : String)
    (limit offset : Int) : Except GoErr (List Document) :=
  match mapLookup c.documents coll with
  | none => .error (.err (collNotExistMsg coll))
  | some docs =>
    let start := offset
    let stop := offset + limit
    let n : Int := docs.length
    if start ≥ n then .ok []
    else
      let stop2 := if stop > n then n else stop
      if 0 ≤ start ∧ start ≤ stop2 then
        .ok ((docs.drop start.toNat).take (stop2 - start).toNat)
      else
        .error (.panic sliceOOBMsg)

/-- `MockMilvusClient.CountDocuments` (mock.go). -/
def MockClient.countDocuments (c : MockClient) (coll : String) :
    Except String Int :=
  match mapLookup c.documents coll with
  | none => .error (collNotExistMsg coll)
  | some docs => .ok docs.length

/-- Removal loop of `MockMilvusClient.DeleteDocument`: drop the first
document whose id matches, `none` when absent. -/
def removeFirstById (docId : String) : List Document → Option (List Document)
  | [] => none
  | d :: ds =>
    if d.id = docId then some ds
    else (removeFirstById docId ds).map (fun t => d :: t)

/-- `MockMilvusClient.DeleteDocument` (mock.go). -/
def MockClient.deleteDocument (c : MockClient) (coll : String)
    (docId : String) : Except String MockClient :=
  match mapLookup c.documents coll with
  | none => .error (collNotExistMsg coll)
  | some docs =>
    match removeFirstById docId docs with
    | none => .error ("document \x27" ++ docId ++ "\x27 not found")
    | some remaining =>
      .ok { c with documents := mapSet c.documents coll remaining }

/-- The slice of `config.Config` the modelled code reads:
`cfg.MCP.Embedding.VectorSize`, used for the Milvus schema dimension.
(`GetTimeout` only feeds `context.WithTimeout`; deadlines are not modelled.) -/
structure Config where
  vectorSize : Int
deriving DecidableEq

/-- Inputs a handler receives from outside the modelled code, the analogue of
the Go `context.Context` plus external collaborators: the `UnixNano` clock
read by the mock's id assignment, and the two replies of the external
Weaviate server used by `WeaviateDatabase.Setup`. -/
structure Ctx where
  now : Nat
  weavClassExists : Except String Bool
  weavCreateClass : Except String Unit

/-- Observable results of an arbitrary implementation of the
`VectorDatabase` interface (interface.go), used to state handler contracts
at the interface they are written against; its operations do not carry
internal state. -/
structure IfaceBehavior where
  typ : String
  collectionName : String
  setupRes : Except String Unit
  writeDocRes : Except String WriteStats
  queryRes : Except String GoVal
  searchRes : Except String (List SearchResult)
  listRes : Except String (List Document)
  countRes : Except String Int
  deleteRes : Except String Unit
  cleanupRes : Except String Unit

/-- A live database handle: `MilvusDatabase` (mock-client backed),
`WeaviateDatabase` (official-client variant, external server behind `Ctx`),
or an arbitrary further interface implementation. -/
inductive VDB where
  | milvus (collectionName : String) (client : MockClient) (cfg : Config)
  | weaviate (collectionName : String)
  | iface (b : IfaceBehavior)

/-- `Type()` of a handle. -/
def VDB.typ : VDB → String
  | .milvus _ _ _ => "milvus"
  | .weaviate _ => "weaviate"
  | .iface b => b.typ

/-- `CollectionName()` of a handle. -/
def VDB.collName : VDB → String
  | .milvus coll _ _ => coll
  | .weaviate coll => coll
  | .iface b => b.collectionName

/-- Collection schema value built by `MilvusDatabase.Setup`. -/
def milvusSchema (coll : String) (embedding : String) (dim : Int) : GoVal :=
  .obj
    [("name", .str coll),
     ("fields", .arr
       [.obj [("name", .str "id"), ("type", .str "string"), ("primary", .bool true)],
        .obj [("name", .str "url"), ("type", .str "string")],
        .obj [("name", .str "text"), ("type", .str "string")],
        .obj [("name", .str "metadata"), ("type", .str "json")],
        .obj [("name", .str "vector"), ("type", .str "float_vector"),
              ("dimension", .num (dim : ℚ))]]),
     ("embedding", .str embedding)]

/-- `Setup` of a handle. Milvus: `Connect` (always nil on the mock) then
`CreateCollection`, which always succeeds and resets the stored documents.
Weaviate: check class existence through the external server; an existing
class is a no-op, otherwise create the class. The returned `VDB` is the
handle's state after the call (Go mutates it in place through the pointer). -/
def VDB.setup (ctx : Ctx) (embedding : String) : VDB → Except String VDB
  | .milvus coll client cfg =>
    .ok (.milvus coll
      (client.createCollection coll (milvusSchema coll embedding cfg.vectorSize)) cfg)
  | .weaviate coll =>
    match ctx.weavClassExists with
    | .error e => .error ("failed to check if class exists: " ++ e)
    | .ok true => .ok (.weaviate coll)
    | .ok false =>
      match ctx.weavCreateClass with
      | .error e => .error ("failed to create class: " ++ e)
      | .ok _ => .ok (.weaviate coll)
  | .iface b =>
    match b.setupRes with
    | .error e => .error e
    | .ok _ => .ok (.iface b)

/-- `WriteDocument` of a handle: the single-document wrapper around the bulk
write. Milvus inserts through the mock client; the official-client Weaviate
variant's `WriteDocuments` is a placeholder that reports success without
storing anything. -/
def VDB.writeDocument (ctx : Ctx) (doc : Document) :
    VDB → Except String (WriteStats × VDB)
  | .milvus coll client cfg =>
    match client.insert coll ctx.now [doc] with
    | .error e => .error ("failed to insert documents: " ++ e)
    | .ok client2 =>
      .ok ({ documentsWritten := 1, processingTime := "", errors := [] },
           .milvus coll client2 cfg)
  | .weaviate coll =>
    .ok ({ documentsWritten := 1, processingTime := "", errors := [] },
         .weaviate coll)
  | .iface b =>
    match b.writeDocRes with
    | .error e => .error e
    | .ok stats => .ok (stats, .iface b)

/-- `Query` of a handle; the Milvus variant targets `collectionName` when the
argument is empty and wraps returned client errors, while a client panic
unwinds unwrapped. -/
def VDB.query (q : String) (limit : Int) (collArg : String) :
    VDB → Except GoErr GoVal
  | .milvus coll client _ =>
    let target := if collArg = "" then coll else collArg
    match client.query target q limit with
    | .error (.err e) => .error (.err ("failed to query Milvus: " ++ e))
    | .error (.panic m) => .error (.panic m)
    | .ok v => .ok v
  | .weaviate _ => .ok (.obj [])
  | .iface b =>
    match b.queryRes with
    | .error e => .error (.err e)
    | .ok v => .ok v

/-- `ListDocuments` of a handle; the Milvus variant wraps returned errors of
the client, while a client panic unwinds unwrapped. -/
def VDB.listDocuments (limit offset : Int) : VDB → Except GoErr (List Document)
  | .milvus coll client _ =>
    match client.listDocuments coll limit offset with
    | .error (.err e) => .error (.err ("failed to list documents from Milvus: " ++ e))
    | .error (.panic m) => .error (.panic m)
    | .ok docs => .ok docs
  | .weaviate _ => .ok []
  | .iface b =>
    match b.listRes with
    | .error e => .error (.err e)
    | .ok docs => .ok docs

/-- `CountDocuments` of a handle. -/
def VDB.countDocuments : VDB → Except String Int
  | .milvus coll client _ =>
    match client.countDocuments coll with
    | .error e => .error ("failed to count documents in Milvus: " ++ e)
    | .ok n => .ok n
  | .weaviate _ => .ok 0
  | .iface b => b.countRes

/-- `DeleteDocument` of a handle. -/
def VDB.deleteDocument (docId : String) : VDB → Except String VDB
  | .milvus coll client cfg =>
    match client.deleteDocument coll docId with
    | .error e => .error ("failed to delete document from Milvus: " ++ e)
    | .ok client2 => .ok (.milvus coll client2 cfg)
  | .weaviate coll => .ok (.weaviate coll)
  | .iface b =>
    match b.deleteRes with
    | .error e => .error e
    | .ok _ => .ok (.iface b)

/-- `Cleanup` of a handle: Milvus closes the mock client (always nil),
the official-client Weaviate variant needs no explicit closing. -/
def VDB.cleanup : VDB → Except String Unit
  | .milvus _ _ _ => .ok ()
  | .weaviate _ => .ok ()
  | .iface b => b.cleanupRes

/-- `vectordb.CreateVectorDatabase` (interface.go): dispatch on the backend
kind; both supported constructors return without error. -/
def CreateVectorDatabase (dbType coll : String) (cfg : Config) :
    Except String VDB :=
  if dbType = "milvus" then .ok (.milvus coll emptyMockClient cfg)
  else if dbType = "weaviate" then .ok (.weaviate coll)
  else .error ("unsupported vector database type: " ++ dbType)

/-- The MCP server state (`mcp.Server`): the instance registry `vectorDBs`
maps names to handle ids, and `handles` is the heap holding each allocated
handle's state — modelling Go's pointers, where backend calls mutate the
pointee and never the name-to-pointer map. `nextId` is the allocator. -/
structure Server where
  config : Config
  nextId : Nat
  vectorDBs : List (String × Nat)
  handles : List (Nat × VDB)

/-- A decoded tool-argument map (`map[string]interface{}`). -/
def Args : Type := List (String × GoVal)

/-- Go type assertion `args[k].(string)`: fails on a missing key or any
non-string value. -/
def getStrArg (args : Args) (k : String) : Option String :=
  match mapLookup args k with
  | some (.str s) => some s
  | _ => none

/-- Go type assertion `args[k].(float64)` (decoded JSON numbers). -/
def getNumArg (args : Args) (k : String) : Option ℚ :=
  match mapLookup args k with
  | some (.num q) => some q
  | _ => none

/-- Go type assertion `args[k].([]interface{})`. -/
def getArrArg (args : Args) (k : String) : Option (List GoVal) :=
  match mapLookup args k with
  | some (.arr vs) => some vs
  | _ => none

/-- Go type assertion `args[k].(map[string]interface{})`. -/
def getObjArg (args : Args) (k : String) : Option (List (String × GoVal)) :=
  match mapLookup args k with
  | some (.obj fs) => some fs
  | _ => none

/-- Go conversion `int(f)` of a JSON number: truncation toward zero. -/
def goInt (q : ℚ) : Int := Int.tdiv q.num (q.den : Int)

/-- Result of one tool-handler invocation: the value-or-error pair the Go
handler returns, together with the server state after the call (Go handlers
mutate the shared state in place). -/
def HOut : Type := (Except GoErr GoVal) × Server

/-- Error of `getDatabaseByName` (server.go) for an unknown instance name. -/
def dbNotFoundMsg (n : String) : String :=
  "vector database \x27" ++ n ++ "\x27 not found. Please create it first"

/-- `Server.getDatabaseByName` (server.go): resolve a name to its handle
under the read lock. The id is returned alongside the handle so callers can
write the mutated handle state back to the heap — the analogue of holding
the Go pointer. A registry id missing from the heap cannot happen in Go
(pointers cannot dangle); that branch returns the same not-found error. -/
def getDatabaseByName (s : Server) (dbName : String) :
    Except String (Nat × VDB) :=
  match mapLookup s.vectorDBs dbName with
  | none => .error (dbNotFoundMsg dbName)
  | some hid =>
    match mapLookup s.handles hid with
    | none => .error (dbNotFoundMsg dbName)
    | some db => .ok (hid, db)

/-- Duplicate-name error of `handleCreateVectorDatabase`. -/
def alreadyExistsMsg (n : String) : String :=
  "vector database \x27" ++ n ++ "\x27 already exists"

/-- Success message of `handleCreateVectorDatabase`. -/
def createdMsg (dbType dbName coll : String) : String :=
  "Successfully created " ++ dbType ++ " vector database \x27" ++ dbName ++
    "\x27 with collection \x27" ++ coll ++ "\x27"

/-- `handleCreateVectorDatabase` (handlers.go): validate `db_name` and
`db_type`, default the collection name, fail on a duplicate name, construct
the backend handle, and insert it into the registry under a fresh id. -/
def handleCreateVectorDatabase (_ctx : Ctx) (s : Server) (args : Args) : HOut :=
  match getStrArg args ("db_name") with
  | none => (.error (.err "db_name is required and must be a string"), s)
  | some dbName =>
    match getStrArg args ("db_type") with
    | none => (.error (.err "db_type is required and must be a string"), s)
    | some dbType =>
      let coll := (getStrArg args ("collection_name")).getD ("MaestroDocs")
      match mapLookup s.vectorDBs dbName with
      | some _ => (.error (.err (alreadyExistsMsg dbName)), s)
      | none =>
        match CreateVectorDatabase dbType coll s.config with
        | .error e => (.error (.err ("failed to create vector database: " ++ e)), s)
        | .ok db =>
          (.ok (.str (createdMsg dbType dbName coll)),
           { s with
             nextId := s.nextId + 1,
             vectorDBs := (dbName, s.nextId) :: s.vectorDBs,
             handles := (s.nextId, db) :: s.handles })

/-- Reply of `handleListDatabases` when the registry is empty. -/
def noDbActiveMsg : String := "No vector databases are currently active"

/-- One entry of the `handleListDatabases` reply: name, type, collection and
document count, with a failed count reported as the sentinel `-1`. The
heap-miss branch is unreachable (Go pointers cannot dangle). -/
def dbListEntry (s : Server) (p : String × Nat) : GoVal :=
  match mapLookup s.handles p.2 with
  | none =>
    .obj [("name", .str p.1), ("type", .str ""), ("collection", .str ""),
          ("document_count", .num (-1))]
  | some db =>
    let count : Int :=
      match db.countDocuments with
      | .error _ => -1
      | .ok c => c
    .obj [("name", .str p.1), ("type", .str db.typ),
          ("collection", .str db.collName),
          ("document_count", .num (count : ℚ))]

/-- `handleListDatabases` (handlers.go): a fixed string when no instance is
active, otherwise one entry per registered instance; never an error. -/
def handleListDatabases (_ctx : Ctx) (s : Server) (_args : Args) : HOut :=
  if s.vectorDBs.length = 0 then (.ok (.str noDbActiveMsg), s)
  else
    (.ok (.obj [("databases", .arr (s.vectorDBs.map (dbListEntry s)))]), s)

/-- Success message of `handleSetupDatabase`. -/
def setupOkMsg (typ dbName embedding : String) : String :=
  "Successfully set up " ++ typ ++ " vector database \x27" ++ dbName ++
    "\x27 with embedding \x27" ++ embedding ++ "\x27"

/-- `handleSetupDatabase` (handlers.go): validate `db_name`, default the
embedding, resolve the instance and run the backend `Setup`. -/
def handleSetupDatabase (ctx : Ctx) (s : Server) (args : Args) : HOut :=
  match getStrArg args ("db_name") with
  | none => (.error (.err "db_name is required and must be a string"), s)
  | some dbName =>
    let embedding := (getStrArg args ("embedding")).getD ("default")
    match getDatabaseByName s dbName with
    | .error e => (.error (.err e), s)
    | .ok (hid, db) =>
      match db.setup ctx embedding with
      | .error e => (.error (.err ("failed to set up vector database: " ++ e)), s)
      | .ok db2 =>
        (.ok (.str (setupOkMsg db2.typ dbName embedding)),
         { s with handles := mapSet s.handles hid db2 })

/-- Vector-validation error of `handleWriteDocument` at index `i`. -/
def invalidVecMsg (i : Nat) : String :=
  "invalid vector value at index " ++ toString i

/-- Vector-validation loop of `handleWriteDocument`: each entry must assert
to `float64`; the first failure reports its index. -/
def parseVector : Nat → List GoVal → Except Nat (List ℚ)
  | _, [] => .ok []
  | i, .num q :: rest =>
    match parseVector (i + 1) rest with
    | .error j => .error j
    | .ok qs => .ok (q :: qs)
  | i, _ :: _ => .error i

/-- JSON encoding of `WriteStats` (struct tags of interface.go; the `errors`
field carries `omitempty`). -/
def writeStatsVal (st : WriteStats) : GoVal :=
  .obj
    ([("documents_written", .num (st.documentsWritten : ℚ)),
      ("processing_time", .str st.processingTime)] ++
     (if st.errors.length = 0 then []
      else [("errors", .arr (st.errors.map (fun e => .str e)))]))

/-- `handleWriteDocument` (handlers.go): validate `db_name`, `url`, `text`,
resolve the instance, attach optional metadata, validate an optional vector
entry-by-entry (aborting the whole call at the first non-number), and
delegate to the backend write. -/
def handleWriteDocument (ctx : Ctx) (s : Server) (args : Args) : HOut :=
  match getStrArg args ("db_name") with
  | none => (.error (.err "db_name is required and must be a string"), s)
  | some dbName =>
    match getStrArg args ("url") with
    | none => (.error (.err "url is required and must be a string"), s)
    | some url =>
      match getStrArg args ("text") with
      | none => (.error (.err "text is required and must be a string"), s)
      | some text =>
        match getDatabaseByName s dbName with
        | .error e => (.error (.err e), s)
        | .ok (hid, db) =>
          let metadata := (getObjArg args ("metadata")).getD []
          match
            (match getArrArg args ("vector") with
             | none => Except.ok []
             | some vs => parseVector 0 vs) with
          | .error i => (.error (.err (invalidVecMsg i)), s)
          | .ok vec =>
            let doc : Document :=
              { id := "", url := url, text := text,
                metadata := metadata, vector := vec }
            match db.writeDocument ctx doc with
            | .error e => (.error (.err ("failed to write document: " ++ e)), s)
            | .ok (stats, db2) =>
              (.ok (.obj
                 [("status", .str "ok"),
                  ("message", .str "Wrote 1 document"),
                  ("write_stats", writeStatsVal stats)]),
               { s with handles := mapSet s.handles hid db2 })

/-- `handleQuery` (handlers.go): validate `db_name` and `query`, resolve the
instance, default `limit` to 5 and the target collection to the empty
string, then delegate to the backend query. -/
def handleQuery (_ctx : Ctx) (s : Server) (args : Args) : HOut :=
  match getStrArg args ("db_name") with
  | none => (.error (.err "db_name is required and must be a string"), s)
  | some dbName =>
    match getStrArg args ("query") with
    | none => (.error (.err "query is required and must be a string"), s)
    | some q =>
      match getDatabaseByName s dbName with
      | .error e => (.error (.err e), s)
      | .ok (_, db) =>
        let limit : Int :=
          match getNumArg args ("limit") with
          | some l => goInt l
          | none => 5
        let coll := (getStrArg args ("collection_name")).getD ("")
        match db.query q limit coll with
        | .error (.err e) =>
          (.error (.err ("failed to query vector database: " ++ e)), s)
        | .error (.panic m) => (.error (.panic m), s)
        | .ok v => (.ok v, s)

/-- JSON encoding of a `Document` (struct tags of interface.go: `id` and
`vector` carry `omitempty`). -/
def docVal (d : Document) : GoVal :=
  .obj
    ((if d.id = "" then [] else [("id", .str d.id)]) ++
     [("url", .str d.url), ("text", .str d.text), ("metadata", .obj d.metadata)] ++
     (if d.vector.length = 0 then []
      else [("vector", .arr (d.vector.map (fun q => .num q)))]))

/-- `handleListDocuments` (handlers.go): validate `db_name`, resolve the
instance, default `limit` to 10 and `offset` to 0, then delegate. -/
def handleListDocuments (_ctx : Ctx) (s : Server) (args : Args) : HOut :=
  match getStrArg args ("db_name") with
  | none => (.error (.err "db_name is required and must be a string"), s)
  | some dbName =>
    match getDatabaseByName s dbName with
    | .error e => (.error (.err e), s)
    | .ok (_, db) =>
      let limit : Int :=
        match getNumArg args ("limit") with
        | some l => goInt l
        | none => 10
      let offset : Int :=
        match getNumArg args ("offset") with
        | some o => goInt o
        | none => 0
      match db.listDocuments limit offset with
      | .error (.err e) => (.error (.err ("failed to list documents: " ++ e)), s)
      | .error (.panic m) => (.error (.panic m), s)
      | .ok docs =>
        (.ok (.obj
           [("documents", .arr (docs.map docVal)),
            ("count", .num (docs.length : ℚ))]), s)

/-- `handleCountDocuments` (handlers.go). -/
def handleCountDocuments (_ctx : Ctx) (s : Server) (args : Args) : HOut :=
  match getStrArg args ("db_name") with
  | none => (.error (.err "db_name is required and must be a string"), s)
  | some dbName =>
    match getDatabaseByName s dbName with
    | .error e => (.error (.err e), s)
    | .ok (_, db) =>
      match db.countDocuments with
      | .error e => (.error (.err ("failed to count documents: " ++ e)), s)
      | .ok c => (.ok (.obj [("count", .num (c : ℚ))]), s)

/-- Success message of `handleDeleteDocument`. -/
def deletedMsg (docId dbName : String) : String :=
  "Successfully deleted document \x27" ++ docId ++
    "\x27 from vector database \x27" ++ dbName ++ "\x27"

/-- `handleDeleteDocument` (handlers.go). -/
def handleDeleteDocument (_ctx : Ctx) (s : Server) (args : Args) : HOut :=
  match getStrArg args ("db_name") with
  | none => (.error (.err "db_name is required and must be a string"), s)
  | some dbName =>
    match getStrArg args ("document_id") with
    | none => (.error (.err "document_id is required and must be a string"), s)
    | some docId =>
      match getDatabaseByName s dbName with
      | .error e => (.error (.err e), s)
      | .ok (hid, db) =>
        match db.deleteDocument docId with
        | .error e => (.error (.err ("failed to delete document: " ++ e)), s)
        | .ok db2 =>
          (.ok (.str (deletedMsg docId dbName)),
           { s with handles := mapSet s.handles hid db2 })

/-- Not-found error of `handleCleanup` (a different message than
`getDatabaseByName`: the lookup is done inline under the write lock). -/
def cleanupNotFoundMsg (n : String) : String :=
  "vector database \x27" ++ n ++ "\x27 not found"

/-- Success message of `handleCleanup`. -/
def cleanedUpMsg (n : String) : String :=
  "Successfully cleaned up and removed vector database \x27" ++ n ++ "\x27"

/-- `handleCleanup` (handlers.go): under the write lock, resolve the name,
run the backend `Cleanup`, and only on its success delete the registry
entry; a backend failure leaves the registry untouched. The handle's heap
slot is not reclaimed (Go garbage-collects it). -/
def handleCleanup (_ctx : Ctx) (s : Server) (args : Args) : HOut :=
  match getStrArg args ("db_name") with
  | none => (.error (.err "db_name is required and must be a string"), s)
  | some dbName =>
    match mapLookup s.vectorDBs dbName with
    | none => (.error (.err (cleanupNotFoundMsg dbName)), s)
    | some hid =>
      match mapLookup s.handles hid with
      | none => (.error (.err (cleanupNotFoundMsg dbName)), s)
      | some db =>
        match db.cleanup with
        | .error e => (.error (.err ("failed to cleanup vector database: " ++ e)), s)
        | .ok _ =>
          (.ok (.str (cleanedUpMsg dbName)),
           { s with vectorDBs := mapDelete s.vectorDBs dbName })

/-- The static tool table built by `registerTools` (server.go), as the map
from tool name to handler; the descriptors' schemas are discovery metadata
not consulted by dispatch. -/
def dispatchTool (name : String) : Option (Ctx → Server → Args → HOut) :=
  if name = "create_vector_database" then some handleCreateVectorDatabase
  else if name = "list_databases" then some handleListDatabases
  else if name = "setup_database" then some handleSetupDatabase
  else if name = "write_document" then some handleWriteDocument
  else if name = "query" then some handleQuery
  else if name = "list_documents" then some handleListDocuments
  else if name = "count_documents" then some handleCountDocuments
  else if name = "delete_document" then some handleDeleteDocument
  else if name = "cleanup" then some handleCleanup
  else none

/-- Body of an HTTP response: a JSON value or the plain text written by
`http.Error`. -/
inductive Body where
  | json (v : GoVal)
  | text (t : String)

/-- An HTTP response: status code and body. -/
structure HttpResponse where
  status : Nat
  body : Body

/-- Outcome of serving one request: a response plus the server state after
it, or a connection aborted by a panicking handler (net/http recovers the
panic and closes the connection without writing a response). -/
inductive HttpOutcome where
  | resp (r : HttpResponse) (s : Server)
  | crashed (s : Server)

/-- Plain-text 404 body of `handleToolCall` for an unknown tool. -/
def toolNotFoundMsg (name : String) : String :=
  "Tool \x27" ++ name ++ "\x27 not found"

/-- `Server.handleToolCall` (server.go): POST only; a body that fails JSON
decoding (modelled as `none`) is a plain-text 400; an unknown tool name is a
plain-text 404; a handler error is 500 with a JSON error envelope; success
is 200 with a JSON result envelope. -/
def handleToolCall (ctx : Ctx) (s : Server) (method : String)
    (body : Option (String × Args)) : HttpOutcome :=
  if ¬ method = "POST" then
    .resp { status := 405, body := .text "Method not allowed" } s
  else
    match body with
    | none => .resp { status := 400, body := .text "Invalid JSON" } s
    | some (name, args) =>
      match dispatchTool name with
      | none => .resp { status := 404, body := .text (toolNotFoundMsg name) } s
      | some h =>
        match h ctx s args with
        | (.error (.err m), s2) =>
          .resp { status := 500, body := .json (.obj [("error", .str m)]) } s2
        | (.error (.panic _), s2) => .crashed s2
        | (.ok v, s2) =>
          .resp { status := 200, body := .json (.obj [("result", v)]) } s2

/-- Well-formed server states: every registered id has a heap slot. Every
state reachable in Go satisfies this (pointers cannot dangle). -/
def WF (s : Server) : Bool :=
  s.vectorDBs.all (fun p => (mapLookup s.handles p.2).isSome)

/-- Concrete external inputs used by witnesses: clock zero, existing class. -/
def ctx0 : Ctx :=
  { now := 0, weavClassExists := .ok true, weavCreateClass := .ok () }

/-- Concrete configuration used by witnesses. -/
def cfg0 : Config := { vectorSize := 768 }

/-- Freshly started server: no instances registered. -/
def s0 : Server := { config := cfg0, nextId := 0, vectorDBs := [], handles := [] }

/-- Arguments of a create call for instance `db1` of kind `milvus`. -/
def createArgs0 : Args := [("db_name", .str "db1"), ("db_type", .str "milvus")]

/-- C1: creating a fresh name with a supported backend kind succeeds and
registers exactly one handle under that name; an immediate second create
with the same name fails with the already-exists error and leaves the state
(in particular the entry for the name) unchanged. -/
theorem create_twice_second_fails
    (ctx ctx2 : Ctx) (s : Server) (args args2 : Args) (n kind kind2 coll : String)
    (hfresh : mapLookup s.vectorDBs n = none)
    (hn : getStrArg args ("db_name") = some n)
    (hk : getStrArg args ("db_type") = some kind)
    (hkind : kind = "milvus" ∨ kind = "weaviate")
    (hcoll : coll = (getStrArg args ("collection_name")).getD ("MaestroDocs"))
    (hn2 : getStrArg args2 ("db_name") = some n)
    (hk2 : getStrArg args2 ("db_type") = some kind2) :
    ∃ db,
      CreateVectorDatabase kind coll s.config = .ok db ∧
      (handleCreateVectorDatabase ctx s args).1 = .ok (.str (createdMsg kind n coll)) ∧
      (handleCreateVectorDatabase ctx s args).2 =
        ⟨s.config, s.nextId + 1, (n, s.nextId) :: s.vectorDBs,
         (s.nextId, db) :: s.handles⟩ ∧
      mapLookup ((handleCreateVectorDatabase ctx s args).2).vectorDBs n =
        some s.nextId ∧
      (∀ m, ¬ m = n →
        mapLookup ((handleCreateVectorDatabase ctx s args).2).vectorDBs m =
          mapLookup s.vectorDBs m) ∧
      mapLookup ((handleCreateVectorDatabase ctx s args).2).handles s.nextId =
        some db ∧
      handleCreateVectorDatabase ctx2 ((handleCreateVectorDatabase ctx s args).2) args2 =
        (.error (.err (alreadyExistsMsg n)),
         (handleCreateVectorDatabase ctx s args).2) := by
  have hdb : ∃ db, CreateVectorDatabase kind coll s.config = .ok db := by
    rcases hkind with h | h <;> subst h
    · exact ⟨VDB.milvus coll emptyMockClient s.config, by simp [CreateVectorDatabase]⟩
    · exact ⟨VDB.weaviate coll, by simp [CreateVectorDatabase]⟩
  obtain ⟨db, hdb⟩ := hdb
  refine ⟨db, hdb, ?_⟩
  have hfirst : handleCreateVectorDatabase ctx s args =
      (.ok (.str (createdMsg kind n coll)),
       ⟨s.config, s.nextId + 1, (n, s.nextId) :: s.vectorDBs,
        (s.nextId, db) :: s.handles⟩) := by
    unfold handleCreateVectorDatabase
    simp only [hn, hk, hfresh, ← hcoll, hdb]
  rw [hfirst]
  refine ⟨rfl, rfl, by simp [mapLookup], ?_, by simp [mapLookup], ?_⟩
  · intro m hm
    simp only [mapLookup]
    rw [if_neg (by simpa [eq_comm] using hm)]
  · unfold handleCreateVectorDatabase
    rw [hn2, hk2]
    simp [mapLookup]

/-- Witness for C1 at a concrete input: on a fresh server, creating `db1`
registers it under id 0, and the repeated create fails with the
already-exists error while leaving the state unchanged. -/
theorem create_twice_second_fails_witness :
    mapLookup ((handleCreateVectorDatabase ctx0 s0 createArgs0).2).vectorDBs ("db1") =
      some 0 ∧
    handleCreateVectorDatabase ctx0 ((handleCreateVectorDatabase ctx0 s0 createArgs0).2)
        createArgs0 =
      (.error (.err (alreadyExistsMsg ("db1"))),
       (handleCreateVectorDatabase ctx0 s0 createArgs0).2) := by
  obtain ⟨db, -, -, -, h4, -, -, h7⟩ :=
    create_twice_second_fails ctx0 ctx0 s0 createArgs0 createArgs0
      ("db1") ("milvus") ("milvus") ("MaestroDocs")
      rfl rfl rfl (Or.inl rfl) rfl rfl rfl
  exact ⟨h4, h7⟩

/-- Deleting a key removes every binding for it. -/
theorem mapLookup_mapDelete_self {α : Type} (m : List (String × α)) (k : String) :
    mapLookup (mapDelete m k) k = none := by
  induction m with
  | nil => rfl
  | cons p rest ih =>
    obtain ⟨k2, v⟩ := p
    by_cases h : k2 = k
    · simpa [mapDelete, h] using ih
    · simp [mapDelete, mapLookup, h, ih]

/-- Deleting a key leaves every other key's binding unchanged. -/
theorem mapLookup_mapDelete_ne {α : Type} (m : List (String × α)) (k k2 : String)
    (h : ¬ k2 = k) :
    mapLookup (mapDelete m k) k2 = mapLookup m k2 := by
  induction m with
  | nil => rfl
  | cons p rest ih =>
    obtain ⟨k3, v⟩ := p
    by_cases h3 : k3 = k
    · subst h3
      have hne : ¬ k3 = k2 := fun hh => h hh.symm
      simp [mapDelete, mapLookup, hne, ih]
    · simp [mapDelete, mapLookup, h3, ih]

/-- C2: cleanup is atomic with respect to the registry. For a registered
instance, when the backend `Cleanup` succeeds the handler succeeds and the
name is removed (a subsequent lookup fails with the not-found error), with
every other name untouched; when the backend `Cleanup` fails the handler
fails and the whole server state — in particular the registry entry — is
unchanged. -/
theorem cleanup_registry_atomic
    (ctx : Ctx) (s : Server) (args : Args) (n : String) (hid : Nat) (db : VDB)
    (hn : getStrArg args ("db_name") = some n)
    (hreg : mapLookup s.vectorDBs n = some hid)
    (hheap : mapLookup s.handles hid = some db) :
    (db.cleanup = .ok () →
       handleCleanup ctx s args =
         (.ok (.str (cleanedUpMsg n)),
          { s with vectorDBs := mapDelete s.vectorDBs n }) ∧
       mapLookup ((handleCleanup ctx s args).2).vectorDBs n = none ∧
       (∀ m, ¬ m = n →
         mapLookup ((handleCleanup ctx s args).2).vectorDBs m =
           mapLookup s.vectorDBs m) ∧
       getDatabaseByName (handleCleanup ctx s args).2 n =
         .error (dbNotFoundMsg n)) ∧
    (∀ e, db.cleanup = .error e →
       handleCleanup ctx s args =
         (.error (.err ("failed to cleanup vector database: " ++ e)), s)) := by
  constructor
  · intro hok
    have hrun : handleCleanup ctx s args =
        (.ok (.str (cleanedUpMsg n)),
         { s with vectorDBs := mapDelete s.vectorDBs n }) := by
      unfold handleCleanup
      simp only [hn, hreg, hheap, hok]
    refine ⟨hrun, ?_, ?_, ?_⟩
    · rw [hrun]
      simpa using mapLookup_mapDelete_self s.vectorDBs n
    · intro m hm
      rw [hrun]
      simpa using mapLookup_mapDelete_ne s.vectorDBs n m hm
    · rw [hrun]
      unfold getDatabaseByName
      simp [mapLookup_mapDelete_self]
  · intro e herr
    unfold handleCleanup
    simp only [hn, hreg, hheap, herr]

/-- Arbitrary interface implementation whose `Cleanup` fails, for the
failure branch of the cleanup contract. -/
def stubCleanupFail : IfaceBehavior :=
  { typ := "stub", collectionName := "c", setupRes := .ok (),
    writeDocRes := .ok { documentsWritten := 1, processingTime := "", errors := [] },
    queryRes := .ok .null, searchRes := .ok [], listRes := .ok [],
    countRes := .ok 0, deleteRes := .ok (),
    cleanupRes := .error "close failed" }

/-- Server with one milvus instance `db1` registered under id 0. -/
def sMil : Server :=
  { config := cfg0, nextId := 1, vectorDBs := [("db1", 0)],
    handles := [(0, .milvus "c" emptyMockClient cfg0)] }

/-- Server with one failing-cleanup stub instance `db1` under id 0. -/
def sStubClean : Server :=
  { config := cfg0, nextId := 1, vectorDBs := [("db1", 0)],
    handles := [(0, .iface stubCleanupFail)] }

/-- Arguments naming instance `db1`. -/
def nameArgs0 : Args := [("db_name", .str "db1")]

/-- Witness for C2 at concrete inputs: a successful backend cleanup removes
`db1` from the registry, and a failing backend cleanup leaves the state
unchanged and reports the wrapped error. -/
theorem cleanup_registry_atomic_witness :
    mapLookup ((handleCleanup ctx0 sMil nameArgs0).2).vectorDBs ("db1") = none ∧
    handleCleanup ctx0 sStubClean nameArgs0 =
      (.error (.err ("failed to cleanup vector database: close failed")),
       sStubClean) := by
  refine ⟨?_, ?_⟩
  · exact ((cleanup_registry_atomic ctx0 sMil nameArgs0 ("db1") 0
      (.milvus ("c") emptyMockClient cfg0) rfl rfl rfl).1 rfl).2.1
  · exact (cleanup_registry_atomic ctx0 sStubClean nameArgs0 ("db1") 0
      (.iface stubCleanupFail) rfl rfl rfl).2 ("close failed") rfl

/-- C3: for a name that is not registered (never created or already cleaned
up), each of the six instance-resolving handlers — query, write_document,
list_documents, count_documents, delete_document and setup_database — fails
with the not-found error of `getDatabaseByName` and leaves the server state
untouched, so no backend operation is reached. -/
theorem unknown_name_not_found
    (ctx : Ctx) (s : Server) (args : Args) (n q u t docId : String)
    (hfresh : mapLookup s.vectorDBs n = none)
    (hdb : getStrArg args ("db_name") = some n)
    (hq : getStrArg args ("query") = some q)
    (hu : getStrArg args ("url") = some u)
    (ht : getStrArg args ("text") = some t)
    (hid : getStrArg args ("document_id") = some docId) :
    handleQuery ctx s args = (.error (.err (dbNotFoundMsg n)), s) ∧
    handleWriteDocument ctx s args = (.error (.err (dbNotFoundMsg n)), s) ∧
    handleListDocuments ctx s args = (.error (.err (dbNotFoundMsg n)), s) ∧
    handleCountDocuments ctx s args = (.error (.err (dbNotFoundMsg n)), s) ∧
    handleDeleteDocument ctx s args = (.error (.err (dbNotFoundMsg n)), s) ∧
    handleSetupDatabase ctx s args = (.error (.err (dbNotFoundMsg n)), s) := by
  have hres : getDatabaseByName s n = .error (dbNotFoundMsg n) := by
    unfold getDatabaseByName
    simp only [hfresh]
  refine ⟨?_, ?_, ?_, ?_, ?_, ?_⟩
  · unfold handleQuery
    simp only [hdb, hq, hres]
  · unfold handleWriteDocument
    simp only [hdb, hu, ht, hres]
  · unfold handleListDocuments
    simp only [hdb, hres]
  · unfold handleCountDocuments
    simp only [hdb, hres]
  · unfold handleDeleteDocument
    simp only [hdb, hid, hres]
  · unfold handleSetupDatabase
    simp only [hdb, hres]

/-- Arguments carrying every key the six resolving handlers validate, naming
the never-created instance `nosuch`. -/
def allArgs0 : Args :=
  [("db_name", .str "nosuch"), ("query", .str "q"), ("url", .str "u"),
   ("text", .str "t"), ("document_id", .str "d1")]

/-- Witness for C3 at a concrete input: on a fresh server, query and
count_documents against `nosuch` fail with the not-found error and leave
the state unchanged. -/
theorem unknown_name_not_found_witness :
    handleQuery ctx0 s0 allArgs0 =
      (.error (.err (dbNotFoundMsg ("nosuch"))), s0) ∧
    handleCountDocuments ctx0 s0 allArgs0 =
      (.error (.err (dbNotFoundMsg ("nosuch"))), s0) := by
  obtain ⟨h1, -, -, h4, -, -⟩ :=
    unknown_name_not_found ctx0 s0 allArgs0 ("nosuch") ("q") ("u") ("t") ("d1")
      rfl rfl rfl rfl rfl rfl
  exact ⟨h1, h4⟩

/-- Writing a key makes lookup return the written value. -/
theorem mapLookup_mapSet_self {κ α : Type} [DecidableEq κ]
    (m : List (κ × α)) (k : κ) (v : α) :
    mapLookup (mapSet m k v) k = some v := by
  induction m with
  | nil => simp [mapSet, mapLookup]
  | cons p rest ih =>
    obtain ⟨k2, w⟩ := p
    by_cases h : k2 = k
    · simp [mapSet, mapLookup, h]
    · simp [mapSet, mapLookup, h, ih]

/-- Writing a key leaves every other key's binding unchanged. -/
theorem mapLookup_mapSet_ne {κ α : Type} [DecidableEq κ]
    (m : List (κ × α)) (k k2 : κ) (v : α) (h : ¬ k2 = k) :
    mapLookup (mapSet m k v) k2 = mapLookup m k2 := by
  induction m with
  | nil =>
    have hne : ¬ k = k2 := fun hh => h hh.symm
    simp [mapSet, mapLookup, hne]
  | cons p rest ih =>
    obtain ⟨k3, w⟩ := p
    by_cases h3 : k3 = k
    · subst h3
      have hne : ¬ k3 = k2 := fun hh => h hh.symm
      simp [mapSet, mapLookup, hne]
    · simp [mapSet, mapLookup, h3, ih]

/-- A document stored in collection `c` before the repeated setup. -/
def doc0 : Document :=
  { id := "d1", url := "u", text := "t", metadata := [], vector := [] }

/-- Mock-client state in which collection `c` already exists and holds one
document. -/
def c4client : MockClient :=
  { collections := [("c", .obj [])], documents := [("c", [doc0])] }

/-- The milvus handle over that client. -/
def c4db : VDB := .milvus "c" c4client cfg0

/-- The client state after running `Setup` on `c4db`. -/
def c4clientAfter : MockClient :=
  c4client.createCollection ("c")
    (milvusSchema ("c") ("default") cfg0.vectorSize)

/-- Counterexample to C4: on the mock-backed Milvus path, `Setup` on a
handle whose collection already exists succeeds but is not a no-op — it
re-creates the collection, so the one stored document is gone afterwards. -/
theorem setup_not_noop_counterexample :
    VDB.setup ctx0 ("default") c4db = .ok (.milvus ("c") c4clientAfter cfg0) ∧
    mapLookup c4client.documents ("c") = some [doc0] ∧
    mapLookup c4clientAfter.documents ("c") = some [] ∧
    ¬ ([] : List Document) = [doc0] := by
  exact ⟨rfl, rfl, rfl, by simp⟩

/-- C4 as amended: setup on an already-existing target never errors; on the
Weaviate backend (official client) an existing class makes setup a pure
no-op returning the unchanged handle, while on the mock-backed Milvus
backend setup always succeeds but re-creates the collection, resetting its
stored document list to empty instead of preserving it. -/
theorem setup_existing_target
    (ctx : Ctx) (coll emb : String) (client : MockClient) (cfg : Config)
    (hexists : ctx.weavClassExists = .ok true) :
    VDB.setup ctx emb (.weaviate coll) = .ok (.weaviate coll) ∧
    VDB.setup ctx emb (.milvus coll client cfg) =
      .ok (.milvus coll
        (client.createCollection coll (milvusSchema coll emb cfg.vectorSize)) cfg) ∧
    mapLookup
      (client.createCollection coll (milvusSchema coll emb cfg.vectorSize)).documents
      coll = some [] := by
  refine ⟨?_, rfl, ?_⟩
  · unfold VDB.setup
    simp only [hexists]
  · unfold MockClient.createCollection
    exact mapLookup_mapSet_self _ _ _

/-- Witness for the amended C4 at concrete inputs: with an existing Weaviate
class the setup is a no-op, and the Milvus setup leaves collection `c`
with an empty document list. -/
theorem setup_existing_target_witness :
    VDB.setup ctx0 ("default") (.weaviate ("c")) = .ok (.weaviate ("c")) ∧
    mapLookup
      (c4client.createCollection ("c")
        (milvusSchema ("c") ("default") cfg0.vectorSize)).documents ("c") =
      some [] := by
  obtain ⟨h1, -, h3⟩ :=
    setup_existing_target ctx0 ("c") ("default") c4client cfg0 rfl
  exact ⟨h1, h3⟩

/-- Server with instance `db1` whose collection `c` holds one document. -/
def sMilDocs : Server :=
  { config := cfg0, nextId := 1, vectorDBs := [("db1", 0)],
    handles := [(0, .milvus "c" c4client cfg0)] }

/-- list_documents arguments with a negative offset. -/
def listNegArgs : Args :=
  [("db_name", .str "db1"), ("limit", .num 1), ("offset", .num (-1))]

/-- Counterexample to C5: supplying offset `-1` to list_documents on a
one-document backend does not return a document list — the mock's slice
expression `docs[start:end]` panics, so the call is not error-free for
every supplied limit and offset. -/
theorem list_documents_negative_offset_panics :
    handleListDocuments ctx0 sMilDocs listNegArgs =
      (.error (.panic sliceOOBMsg), sMilDocs) := rfl

/-- C5 as amended: for non-negative limit `L` and offset `O`, the mock's
`ListDocuments` never fails — it returns exactly the first `L` documents
after skipping the first `O` of the backend's current ordering, hence at
most `L` documents, and the empty sequence whenever `O` reaches the
collection size. -/
theorem list_documents_paginates
    (c : MockClient) (coll : String) (docs : List Document) (L O : Int)
    (hdocs : mapLookup c.documents coll = some docs)
    (hL : 0 ≤ L) (hO : 0 ≤ O) :
    c.listDocuments coll L O = .ok ((docs.drop O.toNat).take L.toNat) ∧
    ((docs.drop O.toNat).take L.toNat).length ≤ L.toNat ∧
    ((docs.length : Int) ≤ O → (docs.drop O.toNat).take L.toNat = []) := by
  have hempty : (docs.length : Int) ≤ O → (docs.drop O.toNat).take L.toNat = [] := by
    intro h
    have hd : docs.length ≤ O.toNat := by omega
    simp [List.drop_eq_nil_of_le hd]
  refine ⟨?_, ?_, hempty⟩
  · unfold MockClient.listDocuments
    simp only [hdocs]
    by_cases hge : O ≥ (docs.length : Int)
    · rw [if_pos hge, hempty hge]
    · rw [if_neg hge]
      by_cases hclamp : O + L > (docs.length : Int)
      · rw [if_pos hclamp]
        have hguard : 0 ≤ O ∧ O ≤ (docs.length : Int) := ⟨hO, by omega⟩
        rw [if_pos hguard]
        have hdrop : (docs.drop O.toNat).length = docs.length - O.toNat :=
          List.length_drop ..
        have h1 : (docs.drop O.toNat).length ≤ ((docs.length : Int) - O).toNat := by
          omega
        have h2 : (docs.drop O.toNat).length ≤ L.toNat := by omega
        rw [List.take_of_length_le h1, List.take_of_length_le h2]
      · rw [if_neg hclamp]
        have hguard : 0 ≤ O ∧ O ≤ O + L := ⟨hO, by omega⟩
        rw [if_pos hguard]
        have : (O + L - O).toNat = L.toNat := by omega
        rw [this]
  · calc ((docs.drop O.toNat).take L.toNat).length
        = min L.toNat (docs.drop O.toNat).length := List.length_take ..
      _ ≤ L.toNat := Nat.min_le_left ..

/-- Witness for the amended C5 at concrete inputs: on the one-document
collection `c`, limit 1 and offset 1 yield the empty list without error. -/
theorem list_documents_paginates_witness :
    MockClient.listDocuments c4client ("c") 1 1 = .ok [] := by
  obtain ⟨h1, -, h3⟩ :=
    list_documents_paginates c4client ("c") [doc0] 1 1 rfl (by omega) (by omega)
  rw [h1, h3 (by simp)]

/-- Every result produced from loop index `i` onward scores at most the
score assigned at index `i`. -/
theorem searchLoop_mem_score (limit : Int) :
    ∀ (docs : List Document) (i : Nat) (r : SearchResult),
      r ∈ searchLoop limit i docs → r.score ≤ 9 / 10 - (i : ℚ) / 10 := by
  intro docs
  induction docs with
  | nil =>
    intro i r h
    simp [searchLoop] at h
  | cons d ds ih =>
    intro i r h
    unfold searchLoop at h
    split at h
    · rcases List.mem_cons.mp h with hh | hh
      · subst hh
        exact le_refl _
      · have hs := ih (i + 1) r hh
        have : ((i : ℚ) + 1) / 10 ≥ (i : ℚ) / 10 := by linarith
        push_cast at hs
        linarith
    · simp at h

/-- The mock search loop produces scores in non-increasing order. -/
theorem searchLoop_sorted (limit : Int) :
    ∀ (docs : List Document) (i : Nat),
      List.Pairwise (fun a b => b.score ≤ a.score) (searchLoop limit i docs) := by
  intro docs
  induction docs with
  | nil =>
    intro i
    simp [searchLoop]
  | cons d ds ih =>
    intro i
    unfold searchLoop
    split
    · refine List.Pairwise.cons ?_ (ih (i + 1))
      intro r hr
      have hs := searchLoop_mem_score limit ds (i + 1) r hr
      show r.score ≤ 9 / 10 - (i : ℚ) / 10
      push_cast at hs
      linarith
    · exact List.Pairwise.nil

/-- The mock search loop started at index `i` yields at most
`max (limit - i) 0` results. -/
theorem searchLoop_length (limit : Int) :
    ∀ (docs : List Document) (i : Nat),
      ((searchLoop limit i docs).length : Int) ≤ max (limit - i) 0 := by
  intro docs
  induction docs with
  | nil =>
    intro i
    simp [searchLoop]
  | cons d ds ih =>
    intro i
    unfold searchLoop
    split
    · have hrec := ih (i + 1)
      simp only [List.length_cons]
      push_cast at hrec ⊢
      omega
    · simp

/-- C6: every successful mock search invocation returns its results in
non-increasing score order and returns at most `limit` of them. A negative
`limit` never yields a successful invocation: the `make` call panics before
the result loop, so success entails `0 ≤ limit` and the loop's
`max (limit - i) 0` bound collapses to `limit`. -/
theorem search_sorted_bounded
    (c : MockClient) (coll q : String) (limit : Int)
    (results : List SearchResult)
    (h : c.search coll q limit = .ok results) :
    List.Pairwise (fun a b => b.score ≤ a.score) results ∧
    (results.length : Int) ≤ limit := by
  unfold MockClient.search at h
  cases hd : mapLookup c.documents coll with
  | none =>
    rw [hd] at h
    exact absurd h (by simp)
  | some docs =>
    rw [hd] at h
    dsimp only at h
    by_cases hneg : limit < 0
    · rw [if_pos hneg] at h
      exact absurd h (by simp)
    · rw [if_neg hneg] at h
      have hres : results = searchLoop limit 0 docs := by
        cases h
        rfl
      subst hres
      refine ⟨searchLoop_sorted limit docs 0, ?_⟩
      have := searchLoop_length limit docs 0
      simp only [Nat.cast_zero, sub_zero] at this
      omega

/-- The result list of a concrete mock search over one document. -/
def searchResults0 : List SearchResult := searchLoop 5 0 [doc0]

/-- Witness for C6 at a concrete input: searching the one-document
collection `c` with limit 5 succeeds with a sorted result list of at most
5 entries. -/
theorem search_sorted_bounded_witness :
    List.Pairwise (fun a b => b.score ≤ a.score) searchResults0 ∧
    ((searchResults0).length : Int) ≤ 5 :=
  search_sorted_bounded c4client ("c") ("q") 5 searchResults0 rfl

/-- C7: list_databases never fails, regardless of the registry contents:
its reply carries one entry per registered instance (so the length of the
listing equals the number of registered names), and an instance whose
`CountDocuments` fails contributes its entry with the sentinel `-1` as
document count instead of aborting the listing. -/
theorem list_databases_tolerates_count_failure
    (ctx : Ctx) (s : Server) (args : Args) :
    (handleListDatabases ctx s args).2 = s ∧
    (∀ e, ¬ (handleListDatabases ctx s args).1 = .error e) ∧
    (s.vectorDBs.length = 0 →
      (handleListDatabases ctx s args).1 = .ok (.str noDbActiveMsg)) ∧
    (¬ s.vectorDBs.length = 0 →
      (handleListDatabases ctx s args).1 =
        .ok (.obj [("databases", .arr (s.vectorDBs.map (dbListEntry s)))]) ∧
      (s.vectorDBs.map (dbListEntry s)).length = s.vectorDBs.length) ∧
    (∀ p, p ∈ s.vectorDBs → ∀ db, mapLookup s.handles p.2 = some db →
      (∀ e2, db.countDocuments = .error e2 →
        dbListEntry s p =
          .obj [("name", .str p.1), ("type", .str db.typ),
                ("collection", .str db.collName),
                ("document_count", .num (-1))]) ∧
      (∀ c, db.countDocuments = .ok c →
        dbListEntry s p =
          .obj [("name", .str p.1), ("type", .str db.typ),
                ("collection", .str db.collName),
                ("document_count", .num (c : ℚ))])) := by
  refine ⟨?_, ?_, ?_, ?_, ?_⟩
  · unfold handleListDatabases
    split <;> rfl
  · intro e
    unfold handleListDatabases
    split <;> simp
  · intro h
    unfold handleListDatabases
    rw [if_pos h]
  · intro h
    unfold handleListDatabases
    rw [if_neg h]
    exact ⟨rfl, List.length_map ..⟩
  · intro p hp db hdb
    constructor
    · intro e2 he
      unfold dbListEntry
      rw [hdb]
      simp only [he]
      norm_num
    · intro c hc
      unfold dbListEntry
      rw [hdb]
      simp only [hc]

/-- Witness for C7 at a concrete input: the server `sMil` holds instance
`db1` whose mock collection was never set up, so its count fails — the
listing still succeeds and reports `db1` with document count `-1`. -/
theorem list_databases_tolerates_count_failure_witness :
    (handleListDatabases ctx0 sMil ([] : Args)).1 =
      .ok (.obj [("databases", .arr (sMil.vectorDBs.map (dbListEntry sMil)))]) ∧
    dbListEntry sMil (("db1", 0)) =
      .obj [("name", .str "db1"), ("type", .str "milvus"),
            ("collection", .str "c"), ("document_count", .num (-1))] := by
  obtain ⟨-, -, -, h4, h5⟩ :=
    list_databases_tolerates_count_failure ctx0 sMil ([] : Args)
  refine ⟨(h4 (by simp [sMil])).1, ?_⟩
  exact (h5 (("db1", 0)) (by simp [sMil]) (.milvus ("c") emptyMockClient cfg0) rfl).1
    ("failed to count documents in Milvus: " ++ collNotExistMsg ("c")) rfl

/-- write_document arguments whose vector contains a non-numeric entry. -/
def badVecArgs : Args :=
  [("db_name", .str "db1"), ("url", .str "u"), ("text", .str "t"),
   ("vector", .arr [.str "x"])]

/-- Counterexample to C8 as stated: a write_document call with a malformed
vector that is addressed to an unregistered name fails with the not-found
error of name resolution — which does not name any vector index — because
the handler resolves the instance before validating the vector. -/
theorem write_document_bad_vector_unknown_db :
    handleWriteDocument ctx0 s0 badVecArgs =
      (.error (.err (dbNotFoundMsg ("db1"))), s0) ∧
    ¬ dbNotFoundMsg ("db1") = invalidVecMsg 0 := by
  exact ⟨rfl, by decide⟩

/-- A failing vector validation pinpoints an entry: the reported index,
shifted by the start index, holds a value that is not a number. -/
theorem parseVector_error_spec :
    ∀ (vs : List GoVal) (i k : Nat), parseVector i vs = .error k →
      i ≤ k ∧ ∃ v, vs.get? (k - i) = some v ∧ (∀ q, ¬ v = .num q) := by
  intro vs
  induction vs with
  | nil =>
    intro i k h
    exact absurd h (by simp [parseVector])
  | cons v rest ih =>
    intro i k h
    cases v with
    | num q =>
      unfold parseVector at h
      cases hrec : parseVector (i + 1) rest with
      | error j =>
        rw [hrec] at h
        cases h
        obtain ⟨hik, w, hw, hnum⟩ := ih (i + 1) k hrec
        refine ⟨by omega, w, ?_, hnum⟩
        have : k - i = (k - (i + 1)) + 1 := by omega
        rw [this]
        simpa using hw
      | ok qs =>
        rw [hrec] at h
        exact absurd h (by simp)
    | str t =>
      cases h
      exact ⟨le_refl _, .str t, by simp, by simp⟩
    | bool b =>
      cases h
      exact ⟨le_refl _, .bool b, by simp, by simp⟩
    | arr es =>
      cases h
      exact ⟨le_refl _, .arr es, by simp, by simp⟩
    | obj fs =>
      cases h
      exact ⟨le_refl _, .obj fs, by simp, by simp⟩
    | null =>
      cases h
      exact ⟨le_refl _, .null, by simp, by simp⟩

/-- C8 as amended: a write_document call that carries the required string
arguments, is addressed to a registered instance, and supplies a vector
containing a non-numeric entry fails with the invalid-argument error naming
the first offending index — the reported index indeed holds a non-number —
and the server state is completely unchanged, so nothing reaches the
backend (all-or-nothing at the handler boundary). -/
theorem write_document_invalid_vector_aborts
    (ctx : Ctx) (s : Server) (args : Args) (n u t : String) (hid : Nat)
    (db : VDB) (vs : List GoVal) (k : Nat)
    (hn : getStrArg args ("db_name") = some n)
    (hu : getStrArg args ("url") = some u)
    (ht : getStrArg args ("text") = some t)
    (hreg : mapLookup s.vectorDBs n = some hid)
    (hheap : mapLookup s.handles hid = some db)
    (hv : getArrArg args ("vector") = some vs)
    (hbad : parseVector 0 vs = .error k) :
    handleWriteDocument ctx s args = (.error (.err (invalidVecMsg k)), s) ∧
    (∃ v, vs.get? k = some v ∧ (∀ q, ¬ v = .num q)) := by
  have hres : getDatabaseByName s n = .ok (hid, db) := by
    unfold getDatabaseByName
    simp only [hreg, hheap]
  constructor
  · unfold handleWriteDocument
    simp only [hn, hu, ht, hres, hv, hbad]
  · obtain ⟨-, w, hw, hnum⟩ := parseVector_error_spec vs 0 k hbad
    exact ⟨w, by simpa using hw, hnum⟩

/-- Witness for the amended C8 at a concrete input: on the server where
`db1` is registered, the malformed vector `["x"]` aborts the call with the
invalid-argument error for index 0 and the state is unchanged. -/
theorem write_document_invalid_vector_aborts_witness :
    handleWriteDocument ctx0 sMilDocs badVecArgs =
      (.error (.err (invalidVecMsg 0)), sMilDocs) := by
  exact (write_document_invalid_vector_aborts ctx0 sMilDocs badVecArgs
    ("db1") ("u") ("t") 0 (.milvus ("c") c4client cfg0) [.str "x"] 0
    rfl rfl rfl rfl rfl rfl rfl).1

/-- C9: the POST /mcp/tools/call envelope. An undecodable body yields a
plain 400; a name outside the tool table yields a plain-text 404; a
dispatched handler that returns an error yields 500 with the JSON error
envelope around the message; a successful handler yields 200 with the JSON
result envelope around its value. -/
theorem tool_call_envelope (ctx : Ctx) (s : Server) :
    handleToolCall ctx s ("POST") none =
      .resp { status := 400, body := .text "Invalid JSON" } s ∧
    (∀ name args, dispatchTool name = none →
      handleToolCall ctx s ("POST") (some (name, args)) =
        .resp { status := 404, body := .text (toolNotFoundMsg name) } s) ∧
    (∀ name args h, dispatchTool name = some h →
      (∀ m s2, h ctx s args = (.error (.err m), s2) →
        handleToolCall ctx s ("POST") (some (name, args)) =
          .resp { status := 500, body := .json (.obj [("error", .str m)]) } s2) ∧
      (∀ v s2, h ctx s args = (.ok v, s2) →
        handleToolCall ctx s ("POST") (some (name, args)) =
          .resp { status := 200, body := .json (.obj [("result", v)]) } s2)) := by
  refine ⟨?_, ?_, ?_⟩
  · unfold handleToolCall
    simp
  · intro name args hname
    unfold handleToolCall
    simp [hname]
  · intro name args h hdisp
    constructor
    · intro m s2 hrun
      unfold handleToolCall
      simp [hdisp, hrun]
    · intro v s2 hrun
      unfold handleToolCall
      simp [hdisp, hrun]

/-- Witness for C9 at concrete inputs: the 400, 404, 500 and 200 cases each
realized on the fresh server. -/
theorem tool_call_envelope_witness :
    handleToolCall ctx0 s0 ("POST") none =
      .resp { status := 400, body := .text "Invalid JSON" } s0 ∧
    handleToolCall ctx0 s0 ("POST") (some (("no_such_tool"), ([] : Args))) =
      .resp { status := 404, body := .text (toolNotFoundMsg ("no_such_tool")) } s0 ∧
    handleToolCall ctx0 s0 ("POST") (some (("query"), ([] : Args))) =
      .resp { status := 500,
              body := .json (.obj
                [("error", .str "db_name is required and must be a string")]) } s0 ∧
    handleToolCall ctx0 s0 ("POST") (some (("list_databases"), ([] : Args))) =
      .resp { status := 200,
              body := .json (.obj [("result", .str noDbActiveMsg)]) } s0 := by
  obtain ⟨h400, h404, hrun⟩ := tool_call_envelope ctx0 s0
  refine ⟨h400, h404 ("no_such_tool") ([] : Args) rfl, ?_, ?_⟩
  · exact (hrun ("query") ([] : Args) handleQuery rfl).1
      ("db_name is required and must be a string") s0 rfl
  · exact (hrun ("list_databases") ([] : Args) handleListDatabases rfl).2
      (.str noDbActiveMsg) s0 rfl

/-- Case analysis of `handleCreateVectorDatabase` for the registry frame:
an erroring call leaves the whole state unchanged, and a successful call
binds exactly the requested name to the fresh id, leaving every other
name's binding unchanged. -/
theorem createRegistryCases (ctx : Ctx) (s : Server) (args : Args) :
    (∀ e, (handleCreateVectorDatabase ctx s args).1 = .error e →
      (handleCreateVectorDatabase ctx s args).2 = s) ∧
    (∀ v n, (handleCreateVectorDatabase ctx s args).1 = .ok v →
      getStrArg args ("db_name") = some n →
      mapLookup ((handleCreateVectorDatabase ctx s args).2).vectorDBs n =
        some s.nextId ∧
      (∀ m, ¬ m = n →
        mapLookup ((handleCreateVectorDatabase ctx s args).2).vectorDBs m =
          mapLookup s.vectorDBs m)) := by
  cases h1 : getStrArg args ("db_name") with
  | none =>
    have hrun : handleCreateVectorDatabase ctx s args =
        (.error (.err "db_name is required and must be a string"), s) := by
      unfold handleCreateVectorDatabase
      simp only [h1]
    rw [hrun]
    exact ⟨fun e _ => rfl, fun v n h => absurd h (by simp)⟩
  | some n1 =>
    cases h2 : getStrArg args ("db_type") with
    | none =>
      have hrun : handleCreateVectorDatabase ctx s args =
          (.error (.err "db_type is required and must be a string"), s) := by
        unfold handleCreateVectorDatabase
        simp only [h1, h2]
      rw [hrun]
      exact ⟨fun e _ => rfl, fun v n h => absurd h (by simp)⟩
    | some ty =>
      cases h3 : mapLookup s.vectorDBs n1 with
      | some id0 =>
        have hrun : handleCreateVectorDatabase ctx s args =
            (.error (.err (alreadyExistsMsg n1)), s) := by
          unfold handleCreateVectorDatabase
          simp only [h1, h2, h3]
        rw [hrun]
        exact ⟨fun e _ => rfl, fun v n h => absurd h (by simp)⟩
      | none =>
        cases h4 : CreateVectorDatabase ty
            ((getStrArg args ("collection_name")).getD ("MaestroDocs")) s.config with
        | error e0 =>
          have hrun : handleCreateVectorDatabase ctx s args =
              (.error (.err ("failed to create vector database: " ++ e0)), s) := by
            unfold handleCreateVectorDatabase
            simp only [h1, h2, h3, h4]
          rw [hrun]
          exact ⟨fun e _ => rfl, fun v n h => absurd h (by simp)⟩
        | ok db =>
          have hrun : handleCreateVectorDatabase ctx s args =
              (.ok (.str (createdMsg ty n1
                 ((getStrArg args ("collection_name")).getD ("MaestroDocs")))),
               { s with
                 nextId := s.nextId + 1,
                 vectorDBs := (n1, s.nextId) :: s.vectorDBs,
                 handles := (s.nextId, db) :: s.handles }) := by
            unfold handleCreateVectorDatabase
            simp only [h1, h2, h3, h4]
          rw [hrun]
          refine ⟨fun e h => absurd h (by simp), fun v n h hn => ?_⟩
          have hn1 : n1 = n := by
            cases hn
            rfl
          subst hn1
          refine ⟨by simp [mapLookup], fun m hm => ?_⟩
          simp only [mapLookup]
          rw [if_neg (fun hh => hm hh.symm)]

/-- Case analysis of `handleCleanup` for the registry frame: an erroring
call leaves the whole state unchanged, and a successful call removes
exactly the requested name, leaving every other name's binding unchanged. -/
theorem cleanupRegistryCases (ctx : Ctx) (s : Server) (args : Args) :
    (∀ e, (handleCleanup ctx s args).1 = .error e →
      (handleCleanup ctx s args).2 = s) ∧
    (∀ v n, (handleCleanup ctx s args).1 = .ok v →
      getStrArg args ("db_name") = some n →
      mapLookup ((handleCleanup ctx s args).2).vectorDBs n = none ∧
      (∀ m, ¬ m = n →
        mapLookup ((handleCleanup ctx s args).2).vectorDBs m =
          mapLookup s.vectorDBs m)) := by
  cases h1 : getStrArg args ("db_name") with
  | none =>
    have hrun : handleCleanup ctx s args =
        (.error (.err "db_name is required and must be a string"), s) := by
      unfold handleCleanup
      simp only [h1]
    rw [hrun]
    exact ⟨fun e _ => rfl, fun v n h => absurd h (by simp)⟩
  | some n1 =>
    cases h2 : mapLookup s.vectorDBs n1 with
    | none =>
      have hrun : handleCleanup ctx s args =
          (.error (.err (cleanupNotFoundMsg n1)), s) := by
        unfold handleCleanup
        simp only [h1, h2]
      rw [hrun]
      exact ⟨fun e _ => rfl, fun v n h => absurd h (by simp)⟩
    | some hid =>
      cases h3 : mapLookup s.handles hid with
      | none =>
        have hrun : handleCleanup ctx s args =
            (.error (.err (cleanupNotFoundMsg n1)), s) := by
          unfold handleCleanup
          simp only [h1, h2, h3]
        rw [hrun]
        exact ⟨fun e _ => rfl, fun v n h => absurd h (by simp)⟩
      | some db =>
        cases h4 : db.cleanup with
        | error e0 =>
          have hrun : handleCleanup ctx s args =
              (.error (.err ("failed to cleanup vector database: " ++ e0)), s) := by
            unfold handleCleanup
            simp only [h1, h2, h3, h4]
          rw [hrun]
          exact ⟨fun e _ => rfl, fun v n h => absurd h (by simp)⟩
        | ok u =>
          have hrun : handleCleanup ctx s args =
              (.ok (.str (cleanedUpMsg n1)),
               { s with vectorDBs := mapDelete s.vectorDBs n1 }) := by
            unfold handleCleanup
            simp only [h1, h2, h3, h4]
          rw [hrun]
          refine ⟨fun e h => absurd h (by simp), fun v n h hn => ?_⟩
          have hn1 : n1 = n := by
            cases hn
            rfl
          subst hn1
          exact ⟨mapLookup_mapDelete_self .., fun m hm =>
            mapLookup_mapDelete_ne s.vectorDBs n1 m hm⟩

/-- C10: the name-to-handle registry is only ever modified by a successful
create (which binds exactly the requested name to the fresh handle) and a
successful cleanup (which removes exactly the requested name); the seven
other handlers never change the registry on any path, and every erroring
invocation of create or cleanup leaves the whole state unchanged. -/
theorem registry_only_create_cleanup (ctx : Ctx) (s : Server) (args : Args) :
    ((handleListDatabases ctx s args).2).vectorDBs = s.vectorDBs ∧
    ((handleSetupDatabase ctx s args).2).vectorDBs = s.vectorDBs ∧
    ((handleWriteDocument ctx s args).2).vectorDBs = s.vectorDBs ∧
    ((handleQuery ctx s args).2).vectorDBs = s.vectorDBs ∧
    ((handleListDocuments ctx s args).2).vectorDBs = s.vectorDBs ∧
    ((handleCountDocuments ctx s args).2).vectorDBs = s.vectorDBs ∧
    ((handleDeleteDocument ctx s args).2).vectorDBs = s.vectorDBs ∧
    (∀ e, (handleCreateVectorDatabase ctx s args).1 = .error e →
      (handleCreateVectorDatabase ctx s args).2 = s) ∧
    (∀ v n, (handleCreateVectorDatabase ctx s args).1 = .ok v →
      getStrArg args ("db_name") = some n →
      mapLookup ((handleCreateVectorDatabase ctx s args).2).vectorDBs n =
        some s.nextId ∧
      (∀ m, ¬ m = n →
        mapLookup ((handleCreateVectorDatabase ctx s args).2).vectorDBs m =
          mapLookup s.vectorDBs m)) ∧
    (∀ e, (handleCleanup ctx s args).1 = .error e →
      (handleCleanup ctx s args).2 = s) ∧
    (∀ v n, (handleCleanup ctx s args).1 = .ok v →
      getStrArg args ("db_name") = some n →
      mapLookup ((handleCleanup ctx s args).2).vectorDBs n = none ∧
      (∀ m, ¬ m = n →
        mapLookup ((handleCleanup ctx s args).2).vectorDBs m =
          mapLookup s.vectorDBs m)) := by
  obtain ⟨hc1, hc2⟩ := createRegistryCases ctx s args
  obtain ⟨hk1, hk2⟩ := cleanupRegistryCases ctx s args
  refine ⟨?_, ?_, ?_, ?_, ?_, ?_, ?_, hc1, hc2, hk1, hk2⟩
  · unfold handleListDatabases
    repeat' split <;> try rfl
  · unfold handleSetupDatabase
    repeat' split <;> try rfl
    all_goals dsimp only
    all_goals repeat' split <;> try rfl
  · unfold handleWriteDocument
    repeat' split <;> try rfl
    all_goals dsimp only
    all_goals repeat' split <;> try rfl
  · unfold handleQuery
    repeat' split <;> try rfl
    all_goals dsimp only
    all_goals repeat' split <;> try rfl
  · unfold handleListDocuments
    repeat' split <;> try rfl
    all_goals dsimp only
    all_goals repeat' split <;> try rfl
  · unfold handleCountDocuments
    repeat' split <;> try rfl
  · unfold handleDeleteDocument
    repeat' split <;> try rfl

/-- Witness for C10 at concrete inputs: a query on the fresh server leaves
the (empty) registry untouched; the successful create of `db1` binds it to
id 0; the successful cleanup of `db1` on `sMil` removes its binding. -/
theorem registry_only_create_cleanup_witness :
    ((handleQuery ctx0 s0 allArgs0).2).vectorDBs = s0.vectorDBs ∧
    mapLookup ((handleCreateVectorDatabase ctx0 s0 createArgs0).2).vectorDBs
      ("db1") = some s0.nextId ∧
    mapLookup ((handleCleanup ctx0 sMil nameArgs0).2).vectorDBs ("db1") =
      none := by
  obtain ⟨-, -, -, hq, -, -, -, -, hcr, -, -⟩ :=
    registry_only_create_cleanup ctx0 s0 allArgs0
  obtain ⟨-, -, -, -, -, -, -, -, hcr, -, -⟩ :=
    registry_only_create_cleanup ctx0 s0 createArgs0
  obtain ⟨-, -, -, -, -, -, -, -, -, -, hcl⟩ :=
    registry_only_create_cleanup ctx0 sMil nameArgs0
  refine ⟨hq, ?_, ?_⟩
  · exact (hcr (.str (createdMsg ("milvus") ("db1") ("MaestroDocs"))) ("db1")
      rfl rfl).1
  · exact (hcl (.str (cleanedUpMsg ("db1"))) ("db1") rfl rfl).1
